import Mathlib

/-!
Shallow embedding of the schema-mapping engine of `alchql`
(`graphene_sqlalchemy/sqlalchemy_converter.py` and
`graphene_sqlalchemy/converter.py`), together with theorems about the
column-type dispatch, the relationship classifier, the composite-converter
lookup and the column field builder.

Python's `singledispatch` resolves the handler for a column type by walking
the type's MRO and taking the most specific registered class.  Every concrete
SQLAlchemy type that occurs is one constructor of `SAType`; the match arms of
`convert_sqlalchemy_type` record which registered handler `singledispatch`
selects for that concrete class (e.g. `BigInteger`, though a subclass of
`Integer`, is registered directly to the float handler, which is therefore
the one selected).  Types with no registered class anywhere in their MRO
(`Interval`, `LargeBinary`, `PickleType`, plain `types.JSON`, ...) are the
`unregistered` constructor, which dispatches to the `@singledispatch` base
function: it raises.
-/

namespace AlchQL

/-- A value stored in a native enumeration: `ChoiceType` choices may be an
`Enum`/`IntEnum` class or a list of `(value, label)` pairs. -/
inductive EnumVal where
  | int (n : Int)
  | str (s : String)
deriving DecidableEq, Repr

/-- Field `ChoiceType.choices`: either an `EnumMeta` (members with names and
values) or a plain list of `(value, label)` pairs. -/
inductive Choices where
  | ofEnumMeta (members : List (String × EnumVal))
  | ofPairs (pairs : List (EnumVal × String))
deriving DecidableEq, Repr

/-- The concrete SQLAlchemy column types that reach
`convert_sqlalchemy_type`, one constructor per concrete class.
`unregistered` stands for any type none of whose superclasses is
registered (carrying the class name for error reporting). -/
inductive SAType where
  | date
  | time
  | string
  | text
  | unicode
  | unicodeText
  | pgUUID
  | pgINET
  | pgCIDR
  | tsvector
  | dateTime
  | smallInteger
  | integer
  | boolean
  | float
  | numeric
  | bigInteger
  | saEnum
  | choice (choices : Choices)
  | scalarList
  | array (item : SAType)
  | hstore
  | pgJSON
  | jsonb
  | jsonType
  | unregistered (className : String)
deriving DecidableEq, Repr

/-- How `graphene` `Enum(name, items)` is fed: either the rebuilt
`(member name, member value)` list (the `EnumMeta` branch) or
`type.choices` passed through unchanged (the pairs branch). -/
inductive EnumContent where
  | fromMembers (l : List (String × EnumVal))
  | rawChoices (l : List (EnumVal × String))
deriving DecidableEq, Repr

/-- The graphene types a conversion can produce.  `saEnumThunk` is the
`lambda: enum_for_sa_enum(...)` thunk returned for `types.Enum`. -/
inductive GrapheneType where
  | String
  | DateTime
  | ID
  | Int
  | Boolean
  | Float
  | JSONString
  | Enum (name : String) (content : EnumContent)
  | saEnumThunk
  | List (inner : GrapheneType)
deriving DecidableEq, Repr

/-- A SQLAlchemy `Column` as consumed by the converter: its type, the
primary-key flag, the `nullable` attribute (`none` when the object lacks
the attribute, so `getattr(column, "nullable", True)` yields `True`),
the owning table's name, the column name, and the `doc` attribute. -/
structure Column where
  type : SAType
  primary_key : Bool
  nullable : Option Bool
  table_name : String
  name : String
  doc : Option String
deriving DecidableEq, Repr

/-- Ways a conversion can fail.  `unsupported` is the base
`@singledispatch` fallback raising
`Don't know how to convert the SQLAlchemy field ...`; `attributeError`
models `column.type.item_type` on a non-array column type;
`outOfFuel` marks a recursion that never terminates (the Python code
recurses until `RecursionError`); `indexError` models
`column_prop.columns[0]` on an empty column list. -/
inductive ConvError where
  | unsupported
  | attributeError
  | outOfFuel
  | indexError
deriving DecidableEq, Repr

/-- Python `str.upper()` as applied to enum type names (character-wise
uppercasing; `Char.toUpper` covers the ASCII identifiers at hand). -/
def pyUpper (s : String) : String :=
  String.mk (s.data.map Char.toUpper)

/-- Source function `convert_sqlalchemy_type(type, column, registry=None)`: singledispatch
on the concrete class of `type`.  Fuel bounds the recursion of the array
handler, which — as in the source — recurses on `column.type.item_type`
(the column's own type), not on the dispatched type's item type. -/
def convert_sqlalchemy_type : Nat → SAType → Column → Except ConvError GrapheneType
  | _, .date, _ => .ok .String
  | _, .time, _ => .ok .String
  | _, .string, _ => .ok .String
  | _, .text, _ => .ok .String
  | _, .unicode, _ => .ok .String
  | _, .unicodeText, _ => .ok .String
  | _, .pgUUID, _ => .ok .String
  | _, .pgINET, _ => .ok .String
  | _, .pgCIDR, _ => .ok .String
  | _, .tsvector, _ => .ok .String
  | _, .dateTime, _ => .ok .DateTime
  | _, .smallInteger, col => .ok (if col.primary_key then .ID else .Int)
  | _, .integer, col => .ok (if col.primary_key then .ID else .Int)
  | _, .boolean, _ => .ok .Boolean
  | _, .float, _ => .ok .Float
  | _, .numeric, _ => .ok .Float
  | _, .bigInteger, _ => .ok .Float
  | _, .saEnum, _ => .ok .saEnumThunk
  | _, .choice ch, col =>
      .ok (.Enum (pyUpper (col.table_name ++ "_" ++ col.name))
        (match ch with
          | .ofEnumMeta members => .fromMembers members
          | .ofPairs pairs => .rawChoices pairs))
  | _, .scalarList, _ => .ok (.List .String)
  | fuel + 1, .array _, col =>
      match col.type with
      | .array item => (convert_sqlalchemy_type fuel item col).map .List
      | _ => .error .attributeError
  | 0, .array _, _ => .error .outOfFuel
  | _, .hstore, _ => .ok .JSONString
  | _, .pgJSON, _ => .ok .JSONString
  | _, .jsonb, _ => .ok .JSONString
  | _, .jsonType, _ => .ok .JSONString
  | _, .unregistered _, _ => .error .unsupported

/-! Per-constructor equations of `convert_sqlalchemy_type`, mirroring the
dispatch table rule by rule. -/

@[simp] theorem convert_date_eq (fuel : Nat) (col : Column) :
    convert_sqlalchemy_type fuel .date col = .ok .String := by cases fuel <;> rfl

@[simp] theorem convert_time_eq (fuel : Nat) (col : Column) :
    convert_sqlalchemy_type fuel .time col = .ok .String := by cases fuel <;> rfl

@[simp] theorem convert_string_eq (fuel : Nat) (col : Column) :
    convert_sqlalchemy_type fuel .string col = .ok .String := by cases fuel <;> rfl

@[simp] theorem convert_text_eq (fuel : Nat) (col : Column) :
    convert_sqlalchemy_type fuel .text col = .ok .String := by cases fuel <;> rfl

@[simp] theorem convert_unicode_eq (fuel : Nat) (col : Column) :
    convert_sqlalchemy_type fuel .unicode col = .ok .String := by cases fuel <;> rfl

@[simp] theorem convert_unicodeText_eq (fuel : Nat) (col : Column) :
    convert_sqlalchemy_type fuel .unicodeText col = .ok .String := by cases fuel <;> rfl

@[simp] theorem convert_pgUUID_eq (fuel : Nat) (col : Column) :
    convert_sqlalchemy_type fuel .pgUUID col = .ok .String := by cases fuel <;> rfl

@[simp] theorem convert_pgINET_eq (fuel : Nat) (col : Column) :
    convert_sqlalchemy_type fuel .pgINET col = .ok .String := by cases fuel <;> rfl

@[simp] theorem convert_pgCIDR_eq (fuel : Nat) (col : Column) :
    convert_sqlalchemy_type fuel .pgCIDR col = .ok .String := by cases fuel <;> rfl

@[simp] theorem convert_tsvector_eq (fuel : Nat) (col : Column) :
    convert_sqlalchemy_type fuel .tsvector col = .ok .String := by cases fuel <;> rfl

@[simp] theorem convert_dateTime_eq (fuel : Nat) (col : Column) :
    convert_sqlalchemy_type fuel .dateTime col = .ok .DateTime := by cases fuel <;> rfl

@[simp] theorem convert_smallInteger_eq (fuel : Nat) (col : Column) :
    convert_sqlalchemy_type fuel .smallInteger col =
      .ok (if col.primary_key then .ID else .Int) := by cases fuel <;> rfl

@[simp] theorem convert_integer_eq (fuel : Nat) (col : Column) :
    convert_sqlalchemy_type fuel .integer col =
      .ok (if col.primary_key then .ID else .Int) := by cases fuel <;> rfl

@[simp] theorem convert_boolean_eq (fuel : Nat) (col : Column) :
    convert_sqlalchemy_type fuel .boolean col = .ok .Boolean := by cases fuel <;> rfl

@[simp] theorem convert_float_eq (fuel : Nat) (col : Column) :
    convert_sqlalchemy_type fuel .float col = .ok .Float := by cases fuel <;> rfl

@[simp] theorem convert_numeric_eq (fuel : Nat) (col : Column) :
    convert_sqlalchemy_type fuel .numeric col = .ok .Float := by cases fuel <;> rfl

@[simp] theorem convert_bigInteger_eq (fuel : Nat) (col : Column) :
    convert_sqlalchemy_type fuel .bigInteger col = .ok .Float := by cases fuel <;> rfl

@[simp] theorem convert_saEnum_eq (fuel : Nat) (col : Column) :
    convert_sqlalchemy_type fuel .saEnum col = .ok .saEnumThunk := by cases fuel <;> rfl

@[simp] theorem convert_choice_eq (fuel : Nat) (ch : Choices) (col : Column) :
    convert_sqlalchemy_type fuel (.choice ch) col =
      .ok (.Enum (pyUpper (col.table_name ++ "_" ++ col.name))
        (match ch with
          | .ofEnumMeta members => .fromMembers members
          | .ofPairs pairs => .rawChoices pairs)) := by cases fuel <;> rfl

@[simp] theorem convert_scalarList_eq (fuel : Nat) (col : Column) :
    convert_sqlalchemy_type fuel .scalarList col = .ok (.List .String) := by
  cases fuel <;> rfl

@[simp] theorem convert_hstore_eq (fuel : Nat) (col : Column) :
    convert_sqlalchemy_type fuel .hstore col = .ok .JSONString := by cases fuel <;> rfl

@[simp] theorem convert_pgJSON_eq (fuel : Nat) (col : Column) :
    convert_sqlalchemy_type fuel .pgJSON col = .ok .JSONString := by cases fuel <;> rfl

@[simp] theorem convert_jsonb_eq (fuel : Nat) (col : Column) :
    convert_sqlalchemy_type fuel .jsonb col = .ok .JSONString := by cases fuel <;> rfl

@[simp] theorem convert_jsonType_eq (fuel : Nat) (col : Column) :
    convert_sqlalchemy_type fuel .jsonType col = .ok .JSONString := by cases fuel <;> rfl

@[simp] theorem convert_unregistered_eq (fuel : Nat) (cls : String) (col : Column) :
    convert_sqlalchemy_type fuel (.unregistered cls) col = .error .unsupported := by
  cases fuel <;> rfl

theorem convert_array_zero_eq (t : SAType) (col : Column) :
    convert_sqlalchemy_type 0 (.array t) col = .error .outOfFuel := rfl

theorem convert_array_succ_eq (fuel : Nat) (t : SAType) (col : Column) :
    convert_sqlalchemy_type (fuel + 1) (.array t) col =
      (match col.type with
        | .array item => (convert_sqlalchemy_type fuel item col).map .List
        | _ => .error .attributeError) := rfl

/-- The innermost non-array type of a (possibly nested) array type. -/
def baseElem : SAType → SAType
  | .array t => baseElem t
  | t => t

/-- Array nesting depth of a type. -/
def arrayDepth : SAType → Nat
  | .array t => arrayDepth t + 1
  | _ => 0

/-- Whether a type dispatches to the no-rule fallback. -/
def isUnregistered : SAType → Bool
  | .unregistered _ => true
  | _ => false

/-- Relationship directions from `sqlalchemy.orm.interfaces`. -/
inductive Direction where
  | MANYTOONE
  | ONETOMANY
  | MANYTOMANY
deriving DecidableEq, Repr

/-- A `RelationshipProperty` as consumed by
`convert_sqlalchemy_relationship`: its identity (used to key the batch
resolver), `direction`, `uselist`, and `mapper.entity` (the target
entity's identity). -/
structure RelationshipProp where
  id : Nat
  direction : Direction
  uselist : Bool
  target : Nat
deriving DecidableEq, Repr

/-- A bound graph object type: its identity and the truthiness of
`_meta.connection` (whether the type is pagination-capable). -/
structure GType where
  id : Nat
  hasConnection : Bool
deriving DecidableEq, Repr

/-- A resolver attached to a produced field: either a user-configured
custom resolver or the consolidated batch resolver for a relationship
(`get_batch_resolver(relationship_prop, single=...)`). -/
inductive Resolver where
  | custom (id : Nat)
  | batch (relId : Nat) (single : Bool)
deriving DecidableEq, Repr

/-- The parent `SQLAlchemyObjectType`, reduced to what the converter
reads: `_meta.registry.get_type_for_model` (as a function from entity
identity to the bound graph type, if any) and the table of
user-configured custom resolvers per ORM field name. -/
structure ObjType where
  get_type_for_model : Nat → Option GType
  customResolvers : String → Option Nat

/-- Modelled from the spec: `resolvers.get_custom_resolver` (file not in
`src/`) returns the user-configured resolver overriding the default for
the given field name, or nothing when no override is configured
(spec §6: `resolver: override default resolver entirely`). -/
def get_custom_resolver (obj_type : ObjType) (orm_field_name : String) : Option Resolver :=
  (obj_type.customResolvers orm_field_name).map .custom

/-- Modelled from the spec: `batching.get_batch_resolver` (file not in
`src/`) returns the resolver that fetches related rows through the
consolidated batch mechanism (spec §4.3), in single mode when
`single` is true. -/
def get_batch_resolver (rel : RelationshipProp) (single : Bool) : Resolver :=
  .batch rel.id single

/-- The shape of a produced relationship field: a single-object field
(whose type is the registry lookup result, as passed to `Field(...)`),
a plain list field, or a cursor-paginated connection field. -/
inductive FieldType where
  | object (t : Option GType)
  | list (t : GType)
  | connection (relId : Nat)
deriving DecidableEq, Repr

/-- A produced graphene field: its type shape and its resolver, if one
was passed to the field constructor. -/
structure Field where
  ftype : FieldType
  resolver : Option Resolver
deriving DecidableEq, Repr

/-- A connection-field factory, called as
`connection_field_factory(relationship_prop, registry, **field_kwargs)`. -/
def ConnFactory : Type :=
  RelationshipProp → (Nat → Option GType) → Field

/-- Modelled from the spec: `BatchSQLAlchemyConnectionField.from_relationship`
(file `fields.py` not in `src/`) builds the default cursor-paginated
connection field over the relationship, fetching through the batch
mechanism (spec §2, §4.4). -/
def from_relationship : ConnFactory :=
  fun rel _ => { ftype := .connection rel.id, resolver := some (.batch rel.id false) }

/-- An error raised while building a relationship field at schema
construction time. -/
inductive SchemaError where
  | attributeError
deriving DecidableEq, Repr

/-- Source function `_convert_o2o_or_m2o_relationship`: re-queries the registry for the
child type, takes the custom resolver when configured and otherwise the
batch resolver with `single=True`, and builds an object field.  The
`batching` parameter is accepted (it swallows the keyword so that it is
not forwarded to `Field(...)`) but never read. -/
def convert_o2o_or_m2o_relationship (rel : RelationshipProp) (obj_type : ObjType)
    (orm_field_name : String) (batching : Bool) : Field :=
  let child_type := obj_type.get_type_for_model rel.target
  let resolver :=
    match get_custom_resolver obj_type orm_field_name with
    | some r => r
    | none => get_batch_resolver rel true
  { ftype := .object child_type, resolver := some resolver }

/-- Source function `_convert_o2m_or_m2m_relationship`: re-queries the registry for the
child type; when the child type is not pagination-capable
(`not child_type._meta.connection`) builds a plain list field, otherwise
calls the connection-field factory (defaulting to
`BatchSQLAlchemyConnectionField.from_relationship`).  Reading
`_meta.connection` off an unbound (`None`) child type raises. -/
def convert_o2m_or_m2m_relationship (rel : RelationshipProp) (obj_type : ObjType)
    (connection_field_factory : Option ConnFactory) : Except SchemaError Field :=
  match obj_type.get_type_for_model rel.target with
  | none => .error .attributeError
  | some child_type =>
      if !child_type.hasConnection then
        .ok { ftype := .list child_type, resolver := none }
      else
        let factory :=
          match connection_field_factory with
          | none => from_relationship
          | some f => f
        .ok (factory rel obj_type.get_type_for_model)

/-- The body of `dynamic_type` inside `convert_sqlalchemy_relationship`:
returns no field when the target entity has no bound graph type, an
object field for `MANYTOONE` or `uselist`-false relationships, and a
list/connection field for `ONETOMANY`/`MANYTOMANY`. -/
def dynamic_type (rel : RelationshipProp) (obj_type : ObjType)
    (connection_field_factory : Option ConnFactory) (orm_field_name : String)
    (batching : Bool) : Except SchemaError (Option Field) :=
  let child_type := obj_type.get_type_for_model rel.target
  match child_type with
  | none => .ok none
  | some _ =>
      if rel.direction = .MANYTOONE ∨ rel.uselist = false then
        .ok (some (convert_o2o_or_m2o_relationship rel obj_type orm_field_name batching))
      else if rel.direction = .ONETOMANY ∨ rel.direction = .MANYTOMANY then
        (convert_o2m_or_m2m_relationship rel obj_type connection_field_factory).map some
      else
        .ok none

/-- Wrapper `graphene.Dynamic` holding the deferred field computation: the
wrapped thunk is evaluated at schema-construction time, after all types
had a chance to be registered. -/
structure Dynamic where
  get : Except SchemaError (Option Field)
deriving Repr

/-- Source function `convert_sqlalchemy_relationship`: wraps `dynamic_type` in a
`Dynamic`. -/
def convert_sqlalchemy_relationship (rel : RelationshipProp) (obj_type : ObjType)
    (connection_field_factory : Option ConnFactory) (orm_field_name : String)
    (batching : Bool) : Dynamic :=
  { get := dynamic_type rel obj_type connection_field_factory orm_field_name batching }

/-- A composite column property as consumed by
`convert_sqlalchemy_composite`: the composite class (by name), the
result of `str(composite_prop)` — absent when the field is not attached
to a class yet, in which case `str` raises `AttributeError` — and the
result of `repr(composite_prop)`. -/
structure CompositeProp where
  composite_class : String
  str_repr : Option String
  repr_repr : String
deriving DecidableEq, Repr

/-- A registered composite converter, reduced to its identity. -/
def CompositeConverter : Type :=
  CompositeProp → Nat

/-- Source function `convert_sqlalchemy_composite`: looks the composite class up in the
registry; when no converter is registered it raises an exception whose
message names the composite property and its class, falling back to
`repr` when `str` of an unattached property raises `AttributeError`.
Otherwise it applies the registered converter. -/
def convert_sqlalchemy_composite (registry : String → Option CompositeConverter)
    (composite_prop : CompositeProp) : Except String Nat :=
  match registry composite_prop.composite_class with
  | none =>
      match composite_prop.str_repr with
      | some s =>
          .error ("Don't know how to convert the composite field " ++ s ++ " ("
            ++ composite_prop.composite_class ++ ")")
      | none =>
          .error ("Don't know how to convert the composite field "
            ++ composite_prop.repr_repr ++ " (" ++ composite_prop.composite_class ++ ")")
  | some converter => .ok (converter composite_prop)

/-- Source function `get_column_doc`: `getattr(column, "doc", None)`. -/
def get_column_doc (column : Column) : Option String :=
  column.doc

/-- Source function `is_column_nullable`: `bool(getattr(column, "nullable", True))` — a
column object lacking the attribute counts as nullable. -/
def is_column_nullable (column : Column) : Bool :=
  column.nullable.getD true

/-- A `ColumnProperty`, reduced to its `columns` list. -/
structure ColumnProperty where
  columns : List Column

/-- The `ModelField` built for a column: the keyword arguments passed to
its constructor, the resolver, and the backing column. -/
structure ModelField where
  type_ : GrapheneType
  required : Bool
  description : Option String
  resolver : Nat
  model_field : Column
deriving DecidableEq, Repr

/-- Source function `convert_sqlalchemy_column`: takes the first column of the property
and fills the field keyword arguments via `setdefault`; note that
`convert_sqlalchemy_type` is evaluated eagerly (its error propagates
even when an explicit `type_` is supplied), so an unconvertible column
fails at schema-build time. -/
def convert_sqlalchemy_column (fuel : Nat) (column_prop : ColumnProperty) (resolver : Nat)
    (kw_type : Option GrapheneType) (kw_required : Option Bool)
    (kw_description : Option (Option String)) : Except ConvError ModelField :=
  match column_prop.columns with
  | [] => .error .indexError
  | column :: _ => do
      let converted ← convert_sqlalchemy_type fuel column.type column
      pure
        { type_ := kw_type.getD converted
          required := kw_required.getD (!is_column_nullable column)
          description := kw_description.getD (get_column_doc column)
          resolver := resolver
          model_field := column }

/-! Concrete sample data used by witnesses and counterexamples. -/

/-- A bound graph type with a connection class. -/
def gAuthor : GType := { id := 1, hasConnection := true }

/-- A registry binding entity 1 to `gAuthor` and nothing else. -/
def sampleRegistry : Nat → Option GType :=
  fun n => if n = 1 then some gAuthor else none

/-- A parent object type with no custom resolvers configured. -/
def objNoCustom : ObjType :=
  { get_type_for_model := sampleRegistry, customResolvers := fun _ => none }

/-- A parent object type with a custom resolver configured for the
field `author`. -/
def objWithCustom : ObjType :=
  { get_type_for_model := sampleRegistry
    customResolvers := fun s => if s = "author" then some 42 else none }

/-- A many-to-one relationship targeting the bound entity 1. -/
def relM2O : RelationshipProp :=
  { id := 7, direction := .MANYTOONE, uselist := false, target := 1 }

/-- A many-to-one relationship targeting the unbound entity 2. -/
def relUnbound : RelationshipProp :=
  { id := 8, direction := .MANYTOONE, uselist := false, target := 2 }

/-- A column of an unregistered type (for example `Interval`). -/
def colInterval : Column :=
  { type := .unregistered "Interval", primary_key := false, nullable := some true
    table_name := "t", name := "span", doc := none }

/-- A nested-array column, `ARRAY(ARRAY(Integer))`. -/
def colNested : Column :=
  { type := .array (.array .integer), primary_key := false, nullable := some true
    table_name := "t", name := "grid", doc := none }

/-- An integer column object lacking the `nullable` attribute. -/
def colNoNullableAttr : Column :=
  { type := .integer, primary_key := false, nullable := none
    table_name := "t", name := "n", doc := none }

/-- A big-integer primary-key column. -/
def colBigIntPk : Column :=
  { type := .bigInteger, primary_key := true, nullable := some false
    table_name := "t", name := "id", doc := none }

/-!
C9 — big-integer columns convert to the float scalar even as primary
keys; the identifier scalar arises only from small/standard integer
primary keys.
-/

/-- C9: for every column, a `BigInteger` native type converts to the
`Float` scalar (in particular when the column is a primary key), and a
conversion yields the `ID` scalar exactly when the native type is
`SmallInteger` or `Integer` and the column is a primary key. -/
theorem bigint_to_float_id_only_int_pk :
    (∀ fuel col, convert_sqlalchemy_type fuel .bigInteger col = .ok .Float) ∧
    (∀ fuel t col, convert_sqlalchemy_type fuel t col = .ok .ID ↔
      ((t = .smallInteger ∨ t = .integer) ∧ col.primary_key = true)) := by
  constructor
  · intro fuel col
    simp
  · intro fuel t col
    constructor
    · intro h
      cases t
      case smallInteger =>
        rw [convert_smallInteger_eq] at h
        cases hp : col.primary_key with
        | false => rw [hp] at h; simp at h
        | true => exact ⟨Or.inl rfl, rfl⟩
      case integer =>
        rw [convert_integer_eq] at h
        cases hp : col.primary_key with
        | false => rw [hp] at h; simp at h
        | true => exact ⟨Or.inr rfl, rfl⟩
      case array item =>
        cases fuel with
        | zero => rw [convert_array_zero_eq] at h; simp at h
        | succ n =>
          rw [convert_array_succ_eq] at h
          revert h
          cases hc : col.type <;> intro h <;> simp at h
          case array inner =>
            cases hr : convert_sqlalchemy_type n inner col <;>
              simp [Except.map, hr] at h
      all_goals simp at h
    · rintro ⟨ht | ht, hp⟩ <;> subst ht <;> simp [hp]

/-!
C4 — a relationship whose target entity has no bound graph type yields
no field at all and raises nothing.
-/

/-- C4: when the registry binds no graph type to the relationship's
target entity, the deferred field computation resolves to no field and
raises no error. -/
theorem unbound_target_omits_field (rel : RelationshipProp) (obj_type : ObjType)
    (cff : Option ConnFactory) (orm_field_name : String) (batching : Bool)
    (h : obj_type.get_type_for_model rel.target = none) :
    (convert_sqlalchemy_relationship rel obj_type cff orm_field_name batching).get =
      .ok none := by
  simp [convert_sqlalchemy_relationship, dynamic_type, h]

/-- Witness for C4 at a concrete unbound relationship. -/
theorem unbound_target_omits_field_witness :
    (convert_sqlalchemy_relationship relUnbound objNoCustom none "author" true).get =
      .ok none :=
  unbound_target_omits_field relUnbound objNoCustom none "author" true rfl

/-!
C5 — `MANYTOONE` or `uselist`-false relationships classify as
single-object fields resolved through the batch mechanism with
`single=True`.
-/

/-- C5: for a relationship with direction `MANYTOONE` or with `uselist`
false, whose target is bound and which has no custom resolver, the
produced field is a single-object field (not a list or connection
field) whose resolver is the batch resolver in single mode. -/
theorem m2o_single_object_batch_single (rel : RelationshipProp) (obj_type : ObjType)
    (cff : Option ConnFactory) (orm_field_name : String) (batching : Bool) (child : GType)
    (hb : obj_type.get_type_for_model rel.target = some child)
    (hdir : rel.direction = .MANYTOONE ∨ rel.uselist = false)
    (hc : get_custom_resolver obj_type orm_field_name = none) :
    (convert_sqlalchemy_relationship rel obj_type cff orm_field_name batching).get =
      .ok (some { ftype := .object (some child)
                  resolver := some (.batch rel.id true) }) := by
  simp [convert_sqlalchemy_relationship, dynamic_type, hb,
    convert_o2o_or_m2o_relationship, hc, get_batch_resolver, if_pos hdir]

/-- Witness for C5 at a concrete bound many-to-one relationship. -/
theorem m2o_single_object_batch_single_witness :
    (convert_sqlalchemy_relationship relM2O objNoCustom none "author" true).get =
      .ok (some { ftype := .object (some gAuthor)
                  resolver := some (.batch 7 true) }) :=
  m2o_single_object_batch_single relM2O objNoCustom none "author" true gAuthor rfl
    (Or.inl rfl) rfl

/-!
C7 — a configured custom resolver is taken verbatim and the batch
resolver is not attached.
-/

/-- C7: on a cardinality-one relationship field with a custom resolver
configured, the built field's resolver is exactly that custom resolver,
and it is not a batch resolver of any relationship or mode. -/
theorem custom_resolver_bypasses_batch (rel : RelationshipProp) (obj_type : ObjType)
    (orm_field_name : String) (batching : Bool) (rid : Nat)
    (h : obj_type.customResolvers orm_field_name = some rid) :
    (convert_o2o_or_m2o_relationship rel obj_type orm_field_name batching).resolver =
      some (.custom rid) ∧
    ∀ relId single,
      (convert_o2o_or_m2o_relationship rel obj_type orm_field_name batching).resolver ≠
        some (.batch relId single) := by
  have hres :
      (convert_o2o_or_m2o_relationship rel obj_type orm_field_name batching).resolver =
        some (.custom rid) := by
    simp [convert_o2o_or_m2o_relationship, get_custom_resolver, h]
  exact ⟨hres, fun relId single hb => by rw [hres] at hb; simp at hb⟩

/-- Witness for C7 at a concrete relationship with custom resolver 42. -/
theorem custom_resolver_bypasses_batch_witness :
    (convert_o2o_or_m2o_relationship relM2O objWithCustom "author" true).resolver =
      some (.custom 42) ∧
    ∀ relId single,
      (convert_o2o_or_m2o_relationship relM2O objWithCustom "author" true).resolver ≠
        some (.batch relId single) :=
  custom_resolver_bypasses_batch relM2O objWithCustom "author" true 42 rfl

/-!
C2 — the claim that disabling `batching` turns the consolidated fetch
off fails on the code: the parameter is accepted and discarded, so the
default resolver is the batch resolver regardless.
-/

/-- C2 counterexample: with `batching` set to false and no custom
resolver configured, the produced field's resolver still is the batch
resolver — refuting the claim that it then does not use the batch
mechanism. -/
theorem batching_disabled_still_batches_counterexample :
    get_custom_resolver objNoCustom "author" = none ∧
    (convert_o2o_or_m2o_relationship relM2O objNoCustom "author" false).resolver =
      some (.batch 7 true) :=
  ⟨rfl, rfl⟩

/-- C2 amended: the per-field `batching` option is accepted but ignored
on cardinality-one relationship fields — whenever no custom resolver is
configured, the produced field's resolver is the batch resolver in
single mode for either value of the option. -/
theorem batching_flag_ignored (rel : RelationshipProp) (obj_type : ObjType)
    (orm_field_name : String) (batching : Bool)
    (h : get_custom_resolver obj_type orm_field_name = none) :
    (convert_o2o_or_m2o_relationship rel obj_type orm_field_name batching).resolver =
      some (.batch rel.id true) := by
  simp [convert_o2o_or_m2o_relationship, h, get_batch_resolver]

/-- Witness for the amended C2 at a concrete relationship with batching
disabled. -/
theorem batching_flag_ignored_witness :
    (convert_o2o_or_m2o_relationship relM2O objNoCustom "owner" false).resolver =
      some (.batch 7 true) :=
  batching_flag_ignored relM2O objNoCustom "owner" false rfl

/-!
C8 — a composite column without a registered converter fails at schema
build time with a message naming the composite class.
-/

/-- C8: when no converter is registered for the composite class, the
composite conversion — run while the schema is being built — returns an
error whose message contains the composite class's identity. -/
theorem composite_without_converter_fails (registry : String → Option CompositeConverter)
    (composite_prop : CompositeProp)
    (h : registry composite_prop.composite_class = none) :
    ∃ msg, convert_sqlalchemy_composite registry composite_prop = .error msg ∧
      ∃ pre post, msg = pre ++ composite_prop.composite_class ++ post := by
  unfold convert_sqlalchemy_composite
  rw [h]
  cases hs : composite_prop.str_repr with
  | none =>
      exact ⟨_, rfl,
        "Don't know how to convert the composite field "
          ++ composite_prop.repr_repr ++ " (", ")", rfl⟩
  | some s =>
      exact ⟨_, rfl,
        "Don't know how to convert the composite field " ++ s ++ " (", ")", rfl⟩

/-- A composite property (class `Point`) used by the C8 witness. -/
def compositePoint : CompositeProp :=
  { composite_class := "Point", str_repr := some "CompositeProperty.start", repr_repr := "cp" }

/-- Witness for C8 at a concrete composite with an empty registry. -/
theorem composite_without_converter_fails_witness :
    ∃ msg, convert_sqlalchemy_composite (fun _ => none) compositePoint = .error msg ∧
      ∃ pre post, msg = pre ++ compositePoint.composite_class ++ post :=
  composite_without_converter_fails (fun _ => none) compositePoint rfl

/-!
C10 — without an explicit `required` override, a column field is
required exactly when the column is not nullable; a column object
without the `nullable` attribute counts as nullable.
-/

/-- Unfolding of `convert_sqlalchemy_column` on an empty column list. -/
theorem convert_column_nil_eq (fuel : Nat) (resolver : Nat) (kw_type : Option GrapheneType)
    (kw_required : Option Bool) (kw_description : Option (Option String)) :
    convert_sqlalchemy_column fuel { columns := [] } resolver kw_type kw_required
      kw_description = .error .indexError := rfl

/-- Unfolding of `convert_sqlalchemy_column` on a nonempty column list. -/
theorem convert_column_cons_eq (fuel : Nat) (c : Column) (rest : List Column)
    (resolver : Nat) (kw_type : Option GrapheneType) (kw_required : Option Bool)
    (kw_description : Option (Option String)) :
    convert_sqlalchemy_column fuel { columns := c :: rest } resolver kw_type kw_required
      kw_description =
      (convert_sqlalchemy_type fuel c.type c).map (fun converted =>
        { type_ := kw_type.getD converted
          required := kw_required.getD (!is_column_nullable c)
          description := kw_description.getD (get_column_doc c)
          resolver := resolver
          model_field := c }) := by
  cases hr : convert_sqlalchemy_type fuel c.type c <;>
    simp [convert_sqlalchemy_column, hr, Except.map]

/-- C10: a column field built with no `required` keyword has
`required = not nullable` for its backing column, and when the column
object lacks the `nullable` attribute the field is not required. -/
theorem column_required_iff_not_nullable (fuel : Nat) (column_prop : ColumnProperty)
    (resolver : Nat) (kw_type : Option GrapheneType) (kw_description : Option (Option String))
    (f : ModelField)
    (h : convert_sqlalchemy_column fuel column_prop resolver kw_type none kw_description =
      .ok f) :
    f.required = !is_column_nullable f.model_field ∧
    (f.model_field.nullable = none → f.required = false) := by
  obtain ⟨cols⟩ := column_prop
  cases cols with
  | nil => rw [convert_column_nil_eq] at h; simp at h
  | cons c rest =>
      rw [convert_column_cons_eq] at h
      cases hr : convert_sqlalchemy_type fuel c.type c with
      | error e => rw [hr] at h; simp [Except.map] at h
      | ok g =>
          rw [hr] at h
          simp only [Except.map, Except.ok.injEq] at h
          subst h
          refine ⟨rfl, fun hn => ?_⟩
          simp only [] at hn
          simp [is_column_nullable, hn]

/-- A one-column property over the attribute-less-nullable column. -/
def cpNoNullable : ColumnProperty := { columns := [colNoNullableAttr] }

/-- Witness for C10: the field built over a column without a `nullable`
attribute is not required. -/
theorem column_required_iff_not_nullable_witness :
    ({ type_ := .Int, required := false, description := none, resolver := 0
       model_field := colNoNullableAttr } : ModelField).required =
      !is_column_nullable colNoNullableAttr ∧
    (colNoNullableAttr.nullable = none →
      ({ type_ := .Int, required := false, description := none, resolver := 0
         model_field := colNoNullableAttr } : ModelField).required = false) :=
  column_required_iff_not_nullable 1 cpNoNullable 0 none none
    { type_ := .Int, required := false, description := none, resolver := 0
      model_field := colNoNullableAttr } rfl

/-!
C1 — the conversion fails with the no-rule error exactly when the
(recursively dispatched) column type has no conversion rule; the error
propagates out of the schema-build-time field builder.
-/

/-- On non-array types the conversion returns the no-rule error exactly
for unregistered types. -/
theorem convert_nonarray_unsupported_iff (fuel : Nat) (t : SAType) (col : Column)
    (h : arrayDepth t = 0) :
    (convert_sqlalchemy_type fuel t col = .error .unsupported ↔
      isUnregistered t = true) := by
  cases t
  case array item => exact absurd h (by simp [arrayDepth])
  all_goals simp [isUnregistered]

/-- C1: for any column whose type is at most one array level deep (the
nested-array case never reaches the fallback, see the C3 analysis) and
any sufficient fuel, the conversion fails with the no-rule error
exactly when the dispatched type — the innermost element type for
arrays — is unregistered. -/
theorem convert_fails_iff_no_rule (fuel : Nat) (col : Column)
    (hf : 1 ≤ fuel) (hd : arrayDepth col.type ≤ 1) :
    (convert_sqlalchemy_type fuel col.type col = .error .unsupported ↔
      isUnregistered (baseElem col.type) = true) := by
  cases hc : col.type
  case array item =>
      have hitem : arrayDepth item = 0 := by
        rw [hc] at hd
        simp [arrayDepth] at hd
        omega
      obtain ⟨n, rfl⟩ : ∃ n, fuel = n + 1 := ⟨fuel - 1, by omega⟩
      have hbase : baseElem (SAType.array item) = item := by
        cases item <;> first | rfl | exact absurd hitem (by simp [arrayDepth])
      rw [hbase, convert_array_succ_eq, hc]
      rw [← convert_nonarray_unsupported_iff n item col hitem]
      cases hr : convert_sqlalchemy_type n item col <;> simp [Except.map, hr]
  all_goals exact convert_nonarray_unsupported_iff fuel _ col rfl

/-- Witness for C1: an `Interval`-typed column, having no rule, fails
with the no-rule error. -/
theorem convert_fails_iff_no_rule_witness :
    convert_sqlalchemy_type 1 colInterval.type colInterval = .error .unsupported :=
  (convert_fails_iff_no_rule 1 colInterval (by decide) (by decide)).mpr (by decide)

/-!
C3 — totality fails on the code: for a nested-array column the array
handler recurses on `column.type.item_type`, which never shrinks, so
the conversion never terminates (Python exhausts the recursion limit).
-/

/-- For a column whose own type is a doubly nested array, the inner
dispatch loops: whatever the fuel, it runs out. -/
theorem convert_inner_nested_out_of_fuel (n : Nat) (t : SAType) (col : Column)
    (h : col.type = .array (.array t)) :
    convert_sqlalchemy_type n (.array t) col = .error .outOfFuel := by
  induction n with
  | zero => exact convert_array_zero_eq _ _
  | succ k ih =>
      rw [convert_array_succ_eq, h]
      simp [Except.map, ih]

/-- C3 (refuting totality on the code): converting the concrete
`ARRAY(ARRAY(Integer))` column exhausts any amount of fuel — the
recursion on `column.type.item_type` never terminates, where the claim
demands a `List (List Int)` result. -/
theorem nested_array_conversion_diverges :
    ∀ fuel, convert_sqlalchemy_type fuel colNested.type colNested = .error .outOfFuel := by
  intro fuel
  cases fuel with
  | zero => rfl
  | succ n =>
      have hstep : convert_sqlalchemy_type (n + 1) colNested.type colNested =
          (convert_sqlalchemy_type n (.array .integer) colNested).map .List := rfl
      rw [hstep, convert_inner_nested_out_of_fuel n .integer colNested rfl]
      rfl

/-!
C6 — enum names of choice columns are the uppercased `table_column`;
two choice columns of one table get distinct names when their column
names differ case-insensitively, and no collision error exists — but
the claim as stated fails for column names differing only in case.
-/

/-- A choice column named `a` of table `users`. -/
def colChoiceLower : Column :=
  { type := .choice (.ofPairs [(.int 1, "Admin")]), primary_key := false
    nullable := some true, table_name := "users", name := "a", doc := none }

/-- A choice column named `A` of the same table. -/
def colChoiceUpper : Column :=
  { type := .choice (.ofPairs [(.int 2, "User")]), primary_key := false
    nullable := some true, table_name := "users", name := "A", doc := none }

/-- C6 counterexample: two distinct choice columns of one table whose
names differ only in case convert — without error — to enums carrying
the same name `USERS_A`, refuting the claimed distinctness. -/
theorem choice_enum_name_collision_counterexample :
    colChoiceLower.name ≠ colChoiceUpper.name ∧
    convert_sqlalchemy_type 1 colChoiceLower.type colChoiceLower =
      .ok (.Enum "USERS_A" (.rawChoices [(.int 1, "Admin")])) ∧
    convert_sqlalchemy_type 1 colChoiceUpper.type colChoiceUpper =
      .ok (.Enum "USERS_A" (.rawChoices [(.int 2, "User")])) :=
  ⟨by decide, rfl, rfl⟩

/-- The enum content built from `ChoiceType.choices` (the inner match of
the choice handler, named for reuse in statements). -/
def choiceContent : Choices → EnumContent
  | .ofEnumMeta members => .fromMembers members
  | .ofPairs pairs => .rawChoices pairs

/-- Uppercasing distributes over appending the shared prefix, so names
with case-insensitively distinct column parts stay distinct. -/
theorem pyUpper_shared_prefix_ne (t a b : String) (h : pyUpper a ≠ pyUpper b) :
    pyUpper (t ++ a) ≠ pyUpper (t ++ b) := by
  intro he
  apply h
  have hd := congrArg String.data he
  simp only [pyUpper, String.data_append, List.map_append] at hd
  exact congrArg String.mk (List.append_cancel_left hd)

/-- C6 amended: for two choice columns of one table, each conversion
succeeds with an enum named by the uppercased `table_column`, and the
two names are distinct provided the column names differ
case-insensitively. -/
theorem choice_enum_names_distinct (col1 col2 : Column) (ch1 ch2 : Choices)
    (fuel1 fuel2 : Nat)
    (ht : col1.table_name = col2.table_name)
    (h1 : col1.type = .choice ch1) (h2 : col2.type = .choice ch2)
    (hn : pyUpper col1.name ≠ pyUpper col2.name) :
    ∃ c1 c2,
      convert_sqlalchemy_type fuel1 col1.type col1 =
        .ok (.Enum (pyUpper (col1.table_name ++ "_" ++ col1.name)) c1) ∧
      convert_sqlalchemy_type fuel2 col2.type col2 =
        .ok (.Enum (pyUpper (col2.table_name ++ "_" ++ col2.name)) c2) ∧
      pyUpper (col1.table_name ++ "_" ++ col1.name) ≠
        pyUpper (col2.table_name ++ "_" ++ col2.name) := by
  refine ⟨choiceContent ch1, choiceContent ch2, ?_, ?_, ?_⟩
  · rw [h1, convert_choice_eq]
    cases ch1 <;> rfl
  · rw [h2, convert_choice_eq]
    cases ch2 <;> rfl
  · rw [ht]
    exact pyUpper_shared_prefix_ne (col2.table_name ++ "_") col1.name col2.name hn

/-- Witness for the amended C6 on two concretely named choice columns
(`role` and `status`). -/
theorem choice_enum_names_distinct_witness :
    ∃ c1 c2,
      convert_sqlalchemy_type 1
          ({ colChoiceLower with name := "role" } : Column).type
          { colChoiceLower with name := "role" } =
        .ok (.Enum (pyUpper ("users" ++ "_" ++ "role")) c1) ∧
      convert_sqlalchemy_type 1
          ({ colChoiceUpper with name := "status" } : Column).type
          { colChoiceUpper with name := "status" } =
        .ok (.Enum (pyUpper ("users" ++ "_" ++ "status")) c2) ∧
      pyUpper ("users" ++ "_" ++ "role") ≠ pyUpper ("users" ++ "_" ++ "status") :=
  choice_enum_names_distinct { colChoiceLower with name := "role" }
    { colChoiceUpper with name := "status" }
    (.ofPairs [(.int 1, "Admin")]) (.ofPairs [(.int 2, "User")]) 1 1
    rfl rfl rfl (by decide)

end AlchQL
